import Mathlib

/-!
Verification development for the bidirectional weekly-planner PDF export
pipeline (`simple_pymypdf_export.py`, `replit_integration.py`,
`api/pymypdf_bidirectional_export.py`, `daily_view_audit.py`, and the
height calculators in `attached_assets/`).

The Python code is shallowly embedded: datetimes become an explicit record,
string parsing becomes structural recursion over character lists, file-system
and PDF-library effects become explicit environment records, and every
function is total and executable.
-/

namespace Planner

/-! ## Model of Python `datetime` values

`datetime.fromisoformat` produces either a naive or an offset-aware value;
the scripts only ever produce the UTC offset `+00:00` (via
`s.replace('Z', '+00:00')`), so awareness is modelled as a single flag.
Comparing a naive with an aware value raises `TypeError` in Python, which the
embedding models by a partial comparison returning `none`. -/

structure PyDateTime where
  year : Nat
  month : Nat
  day : Nat
  hour : Nat
  minute : Nat
  second : Nat
  tzAware : Bool
deriving DecidableEq, Repr

/-- Numeric value of a decimal digit character. -/
def digitVal (c : Char) : Nat := c.toNat - 48

/-- Two decimal digits to a number (e.g. month, day, hour fields). -/
def parse2 (a b : Char) : Option Nat :=
  if a.isDigit && b.isDigit then some (digitVal a * 10 + digitVal b) else none

/-- Four decimal digits to a number (the year field). -/
def parse4 (a b c d : Char) : Option Nat :=
  if a.isDigit && b.isDigit && c.isDigit && d.isDigit then
    some (digitVal a * 1000 + digitVal b * 100 + digitVal c * 10 + digitVal d)
  else none

def isLeapYear (y : Nat) : Bool :=
  (y % 4 == 0 && y % 100 != 0) || y % 400 == 0

def daysInMonth (y m : Nat) : Nat :=
  if m == 2 then (if isLeapYear y then 29 else 28)
  else if m == 4 || m == 6 || m == 9 || m == 11 then 30
  else 31

/-- Validation performed by the `datetime` constructor: all fields must be in
range, otherwise `fromisoformat` raises `ValueError` (modelled as `none`). -/
def mkDateTime (y mo dy hh mm ss : Nat) (aware : Bool) : Option PyDateTime :=
  if 1 ≤ y && y ≤ 9999 && 1 ≤ mo && mo ≤ 12 && 1 ≤ dy && dy ≤ daysInMonth y mo
      && hh ≤ 23 && mm ≤ 59 && ss ≤ 59 then
    some ⟨y, mo, dy, hh, mm, ss, aware⟩
  else none

/-- Seconds field of an ISO time, with an optional fractional part (the
fractional digits do not matter at the second granularity used by the
scripts, so they are validated and discarded). -/
def parseSeconds : List Char → Option Nat
  | [s1, s2] => parse2 s1 s2
  | s1 :: s2 :: '.' :: frac =>
      if frac ≠ [] && frac.all Char.isDigit then parse2 s1 s2 else none
  | _ => none

/-- `HH:MM` or `HH:MM:SS` (with optional fractional seconds). -/
def parseTimeChars : List Char → Option (Nat × Nat × Nat)
  | h1 :: h2 :: ':' :: m1 :: m2 :: rest => do
      let hh ← parse2 h1 h2
      let mm ← parse2 m1 m2
      match rest with
      | [] => some (hh, mm, 0)
      | ':' :: secChars => do
          let ss ← parseSeconds secChars
          some (hh, mm, ss)
      | _ => none
  | _ => none

/-- Does the character list end with the UTC offset suffix `+00:00`? -/
def endsWithUtcOffset (cs : List Char) : Bool :=
  cs.length ≥ 6 && cs.drop (cs.length - 6) == "+00:00".toList

/-- Model of Python `datetime.fromisoformat`, restricted to the shapes the
scripts feed it: `YYYY-MM-DD`, optionally followed by `T` or a space and
`HH:MM[:SS[.ffffff]]`, optionally followed by the UTC offset `+00:00`
(the only offset the scripts can produce, via the `Z` replacement).
Out-of-range fields are rejected as in Python. -/
def fromisoformatChars (cs0 : List Char) : Option PyDateTime :=
  let aware := endsWithUtcOffset cs0
  let cs := if aware then cs0.take (cs0.length - 6) else cs0
  match cs with
  | y1 :: y2 :: y3 :: y4 :: '-' :: m1 :: m2 :: '-' :: d1 :: d2 :: rest => do
      let y ← parse4 y1 y2 y3 y4
      let mo ← parse2 m1 m2
      let dy ← parse2 d1 d2
      match rest with
      | [] => mkDateTime y mo dy 0 0 0 aware
      | sep :: timeChars =>
          if sep == 'T' || sep == ' ' then do
            let (hh, mm, ss) ← parseTimeChars timeChars
            mkDateTime y mo dy hh mm ss aware
          else none
  | _ => none

def fromisoformat (s : String) : Option PyDateTime :=
  fromisoformatChars s.toList

/-- Model of Python `s.replace('Z', '+00:00')` (single-character pattern, so
every `Z` is replaced independently). -/
def replaceZ (s : String) : String :=
  String.mk (s.toList.flatMap fun c => if c == 'Z' then "+00:00".toList else [c])

/-- Lexicographic order on datetime fields, as Python compares two datetimes
of the same awareness (all aware values here carry the same offset). -/
def PyDateTime.leB (a b : PyDateTime) : Bool :=
  if a.year < b.year then true else if b.year < a.year then false
  else if a.month < b.month then true else if b.month < a.month then false
  else if a.day < b.day then true else if b.day < a.day then false
  else if a.hour < b.hour then true else if b.hour < a.hour then false
  else if a.minute < b.minute then true else if b.minute < a.minute then false
  else decide (a.second ≤ b.second)

/-- Python `a <= b` on datetimes: `TypeError` (modelled `none`) when one side
is naive and the other aware. -/
def pyLE (a b : PyDateTime) : Option Bool :=
  if a.tzAware == b.tzAware then some (a.leB b) else none

/-! ## Event records

Events arrive as JSON dictionaries; the scripts read `startTime`/`endTime`
with default `''`, `title` with default `'Untitled'`, and the note/action
lists under `eventNotes`/`actionItems` (alias keys `notes`/`actions` are
modelled by the same two fields). -/

structure Event where
  title : Option String
  startTime : String
  endTime : String
  source : Option String
  eventNotes : List String
  actionItems : List String
deriving DecidableEq, Repr

/-- The parse attempt every helper in `simple_pymypdf_export.py` performs on
an event: `event.get('startTime', '')`, the falsy-string guard, then
`datetime.fromisoformat(event_start.replace('Z', '+00:00'))`; a raised
exception is `none`. -/
def parsed_start (e : Event) : Option PyDateTime :=
  if e.startTime == "" then none
  else fromisoformat (replaceZ e.startTime)

/-- Body of the per-event `try` block of `filter_events_for_week`: parse the
start time and evaluate `week_start <= event_date <= week_end`; any raised
exception (parse failure, or naive/aware comparison `TypeError`) makes the
event be skipped. -/
def eventInWeek (week_start week_end : PyDateTime) (e : Event) : Bool :=
  match parsed_start e with
  | none => false
  | some d => ((pyLE week_start d).getD false) && ((pyLE d week_end).getD false)

/-- `filter_events_for_week` from `simple_pymypdf_export.py`: the loop that
appends each surviving event to `week_events`. -/
def filter_events_for_week (events : List Event) (week_start week_end : PyDateTime) :
    List Event :=
  match events with
  | [] => []
  | e :: rest =>
      if eventInWeek week_start week_end e then
        e :: filter_events_for_week rest week_start week_end
      else
        filter_events_for_week rest week_start week_end

/-- Model of Python `str.split(sep)` for a single-character separator, over
character lists (`"a:b".split(':') = ["a","b"]`, `":".split(':') = ["",""]`). -/
def splitOnChar (sep : Char) : List Char → List (List Char)
  | [] => [[]]
  | c :: rest =>
      let r := splitOnChar sep rest
      if c == sep then [] :: r
      else (c :: r.headD []) :: r.tail

/-- `safe_parse_datetime` from `api/pymypdf_bidirectional_export.py`: try
`fromisoformat` on the `Z`-replaced string, then retry on
`date_str.split('.')[0] + 'Z'`, else `None`. -/
def safe_parse_datetime (date_str : String) : Option PyDateTime :=
  if date_str == "" then none
  else match fromisoformat (replaceZ date_str) with
    | some d => some d
    | none =>
        let clean_date := String.mk ((splitOnChar '.' date_str.toList).headD []) ++ "Z"
        fromisoformat (replaceZ clean_date)

/-- `is_event_on_date`: the event's parsed start has the same calendar date
as the target (Python compares the `.date()` projections, which never raises
even across awareness). -/
def is_event_on_date (e : Event) (target : PyDateTime) : Bool :=
  match parsed_start e with
  | none => false
  | some d => d.year == target.year && d.month == target.month && d.day == target.day

/-- `is_event_at_time`: the event's parsed start has exactly the given hour
and minute. -/
def is_event_at_time (e : Event) (hour minute : Nat) : Bool :=
  match parsed_start e with
  | none => false
  | some d => d.hour == hour && d.minute == minute

/-- Zero-pad a number to two digits, as Python `%H`/`%M`/`%m`/`%d` do. -/
def fmt2 (n : Nat) : String :=
  if n < 10 then "0" ++ toString n else toString n

/-- `parse_event_time`: format the parsed start as `%H:%M`, falling back to
`"00:00"`. -/
def parse_event_time (time_str : String) : String :=
  if time_str == "" then "00:00"
  else match fromisoformat (replaceZ time_str) with
    | none => "00:00"
    | some d => fmt2 d.hour ++ ":" ++ fmt2 d.minute

/-- `week_start.strftime('%Y-%m-%d')` (years here are four-digit). -/
def strftimeYmd (d : PyDateTime) : String :=
  toString d.year ++ "-" ++ fmt2 d.month ++ "-" ++ fmt2 d.day

/-! ## Weekly-overview rendering path (`create_weekly_overview_page`)

Grid constants from the source: `grid_start_x = 50`, `grid_start_y = 120`,
`column_width = 100`, `header_height = 30`, `row_height = 25`.  For each day
column, the day's events are enumerated (at most 10 shown) and the `j`-th one
is drawn at `y = grid_start_y + header_height + j * row_height` — a
sequential row position, independent of the event's start time. -/

def grid_start_x : Nat := 50
def grid_start_y : Nat := 120
def column_width : Nat := 100
def weekly_header_height : Nat := 30
def row_height : Nat := 25

/-- One rendered event entry in a weekly day column: its top `y` coordinate,
its time text, and its (truncated, `[:15]`) title text. -/
structure WeeklyEntry where
  y : Nat
  timeText : String
  titleText : String
deriving DecidableEq, Repr

/-- The entries drawn in the day column for `current_date`:
`day_events = [e for e in events if is_event_on_date(e, current_date)]`,
then `for j, event in enumerate(day_events[:10])` drawn at row `j` with
`event.get('title', 'Untitled')[:15]`. -/
def weekly_day_entries (events : List Event) (current_date : PyDateTime) :
    List WeeklyEntry :=
  let day_events := events.filter (fun e => is_event_on_date e current_date)
  (day_events.take 10).enum.map fun p =>
    ⟨grid_start_y + weekly_header_height + p.1 * row_height,
     parse_event_time p.2.startTime,
     (p.2.title.getD "Untitled").take 15⟩

/-- Row index the weekly path assigns to an event: its position among the
day's (first ten) events. -/
def weekly_row_index (events : List Event) (current_date : PyDateTime) (e : Event) :
    Option Nat :=
  ((events.filter (fun ev => is_event_on_date ev current_date)).take 10).findIdx?
    (fun ev => ev == e)

/-! ## Daily-page rendering path (`create_daily_page`)

`time_start_y = 140`, `slot_height = 26`; the loop `for hour in range(6, 24):
for minute in [0, 30]` computes `slot_index = (hour - 6) * 2 + (minute // 30)`
and renders in that slot every day event with `is_event_at_time(e, hour,
minute)`. -/

def time_start_y : Nat := 140
def slot_height : Nat := 26

/-- The `(hour, minute)` pairs iterated by the daily time-slot loop. -/
def daily_slot_times : List (Nat × Nat) :=
  (List.range' 6 18).flatMap fun hour => [(hour, 0), (hour, 30)]

/-- `slot_index = (hour - 6) * 2 + (minute // 30)` (loop-local, `hour ≥ 6`). -/
def slot_index (hour minute : Nat) : Nat :=
  (hour - 6) * 2 + minute / 30

/-- The daily-grid slots in which event `e` is rendered. -/
def daily_slots_for_event (e : Event) : List Nat :=
  (daily_slot_times.filter fun hm => is_event_at_time e hm.1 hm.2).map
    fun hm => slot_index hm.1 hm.2

/-! ## Link wiring -/

/-- An internal navigation link inserted with `page.insert_link(...)`: source
page, clickable rectangle, destination page. -/
structure LinkEdge where
  fromPage : Nat
  rect : ℚ × ℚ × ℚ × ℚ
  toPage : Nat
deriving DecidableEq, Repr

/-- `add_bidirectional_hyperlinks` from `simple_pymypdf_export.py`: 7 links
from the weekly page's day headers to pages 1..7, then per daily page `i+1`
a link to the weekly page 0, a previous-day link to page `i` when `i > 0`,
and a next-day link to page `i + 2` when `i < 6`. -/
def add_bidirectional_hyperlinks : List LinkEdge :=
  ((List.range 7).map fun i =>
    ⟨0, ((50 + (i : ℚ) * 100), 120, (150 + (i : ℚ) * 100), 150), i + 1⟩)
  ++ ((List.range 7).flatMap fun i =>
    [⟨i + 1, (50, 100, 150, 125), 0⟩]
    ++ (if 0 < i then [⟨i + 1, (200, 100, 280, 125), i⟩] else [])
    ++ (if i < 6 then [⟨i + 1, (320, 100, 400, 125), i + 2⟩] else []))

/-- `_add_hyperlinks_to_package` from `replit_integration.py` (Lean name
without the leading underscore).  `dims p` gives `(width, height)` of page
`p` of the assembled document.  Per day `i`: one weekly→day header link to
page `i+1`; then on daily page `i+1` a top weekly button, a bottom weekly
button and a date-title area all linking to page 0, plus previous/next links
to pages `i` / `i+2` guarded exactly as in the source. -/
def add_hyperlinks_to_package (dims : Nat → ℚ × ℚ) : List LinkEdge :=
  let w0 := (dims 0).1
  let h0 := (dims 0).2
  let time_column_width := w0 * (8 / 100)
  let day_column_width := (w0 - time_column_width) / 7
  let header_height := h0 * (12 / 100)
  ((List.range 7).map fun i =>
    ⟨0, (time_column_width + (i : ℚ) * day_column_width, 0,
         time_column_width + ((i : ℚ) + 1) * day_column_width, header_height),
     i + 1⟩)
  ++ ((List.range 7).flatMap fun i =>
    let w := (dims (i + 1)).1
    let h := (dims (i + 1)).2
    [⟨i + 1, (15, 15, 150, 60), 0⟩,
     ⟨i + 1, (w * (4 / 10), h - 60, w * (6 / 10), h - 15), 0⟩,
     ⟨i + 1, (w * (25 / 100), 15, w * (75 / 100), 60), 0⟩]
    ++ (if 0 < i then [⟨i + 1, (15, h - 60, 100, h - 15), i⟩] else [])
    ++ (if i < 6 then [⟨i + 1, (w - 100, h - 60, w - 15, h - 15), i + 2⟩] else []))

/-! ## Page assembly -/

inductive PageKind where
  | weekly : PageKind
  | daily (dayName : String) (dayIndex : Nat) : PageKind
deriving DecidableEq, Repr

/-- The `days` list of `create_bidirectional_linked_pdf`. -/
def days : List String :=
  ["Monday", "Tuesday", "Wednesday", "Thursday", "Friday", "Saturday", "Sunday"]

/-- Pages created by `create_bidirectional_linked_pdf`, in creation order:
first the weekly overview, then `for i, day_name in enumerate(days)` one
daily page each. -/
def createPdfPageList : List PageKind :=
  PageKind.weekly :: days.enum.map fun p => PageKind.daily p.2 p.1

/-- Page sequence assembled by `create_bidirectional_weekly_package`:
`insert_pdf` appends all pages of the weekly document, then all pages of
each daily document in list order. -/
def packagePageList (weeklyPages : List PageKind) (dailyDocs : List (List PageKind)) :
    List PageKind :=
  weeklyPages ++ dailyDocs.flatten

/-! ## Block geometry -/

/-- `get_appointment_height` from
`attached_assets/replit_daily_planner_1752276142654.py`:
`slots_needed = max(1, duration_minutes // 30); return slots_needed * 40`
(40px per 30-minute slot; `//` is floor division). -/
def get_appointment_height (duration_minutes : Int) : Int :=
  max 1 (Int.fdiv duration_minutes 30) * 40

/-- Accumulate decimal digits into a number. -/
def digitsToNat (cs : List Char) : Nat :=
  cs.foldl (fun a c => a * 10 + digitVal c) 0

/-- Model of Python `int(s)` restricted to an optional leading minus sign
followed by decimal digits (the shapes the time strings can produce);
anything else raises `ValueError` (`none`). -/
def pyIntOfChars : List Char → Option Int
  | '-' :: rest =>
      if rest ≠ [] && rest.all Char.isDigit then some (-(Int.ofNat (digitsToNat rest)))
      else none
  | cs =>
      if cs ≠ [] && cs.all Char.isDigit then some (Int.ofNat (digitsToNat cs))
      else none

/-- `_time_to_minutes` from
`attached_assets/pdf_generator_enhanced_1752454629510.py`: empty string or a
string without `':'` gives 0; then `hours, minutes = map(int, s.split(':'))`
(exactly two parts, both integers, else the exception is caught and 0 is
returned); result `hours * 60 + minutes`. -/
def time_to_minutes (time_str : String) : Int :=
  if time_str == "" || !(time_str.toList.contains ':') then 0
  else match splitOnChar ':' time_str.toList with
    | [hs, ms] =>
        match pyIntOfChars hs, pyIntOfChars ms with
        | some h, some m => h * 60 + m
        | _, _ => 0
    | _ => 0

/-- Python `int(x)` on a rational value: truncation toward zero.  The source
computes with binary floats; the embedding uses exact rational arithmetic,
which agrees on every value the theorems below evaluate. -/
def pyInt (q : ℚ) : Int :=
  if 0 ≤ q then q.floor else q.ceil

/-- `_calculate_daily_event_height`:
`base_height = int((duration / 30) * 30)` (30px per 30-minute slot); when the
event has notes or action items, `extra_height = (notes_count +
actions_count) * 15` plus 20 per present section header, and the result is
`max(base_height, base_height + extra_height)`; otherwise `base_height`. -/
def calculate_daily_event_height (e : Event) : Int :=
  let duration := time_to_minutes e.endTime - time_to_minutes e.startTime
  let base_height := pyInt ((duration : ℚ) / 30 * 30)
  if e.eventNotes ≠ [] || e.actionItems ≠ [] then
    let notes_count := e.eventNotes.length
    let actions_count := e.actionItems.length
    let extra_height := (notes_count + actions_count) * 15
      + (if 0 < notes_count then 20 else 0)
      + (if 0 < actions_count then 20 else 0)
    max base_height (base_height + (extra_height : Int))
  else base_height

/-- `calculate_expected_position` from `daily_view_audit.py` on the parsed
hour/minute: `minutes_since_6am = (hour - 6) * 60 + minute`, result
`(minutes_since_6am // 30) * 40` with Python floor division and no
clamping. -/
def calculate_expected_position (hour minute : Int) : Int :=
  (Int.fdiv ((hour - 6) * 60 + minute) 30) * 40

/-- String front-end of `calculate_expected_position`:
`hour, minute = map(int, time_str.split(':'))`. -/
def calculate_expected_position_str (time_str : String) : Option Int :=
  match splitOnChar ':' time_str.toList with
  | [hs, ms] => do
      let h ← pyIntOfChars hs
      let m ← pyIntOfChars ms
      some (calculate_expected_position h m)
  | _ => none

/-! ## Export entry points with explicit effect environments -/

/-- Kind of file written by the export. -/
inductive FileKind where
  | pdf : FileKind
  | txt : FileKind
deriving DecidableEq, Repr

/-- Failure injection for the PyMuPDF/file-system effects of
`create_bidirectional_linked_pdf`: whether saving the PDF raises, and
whether writing the text-fallback file raises. -/
structure WriteEnv where
  pdfSaveFails : Bool
  txtWriteFails : Bool
deriving DecidableEq, Repr

/-- `create_text_fallback`: re-parse `week_start_str`, name the `.txt` file,
write it; any exception yields `None` with no recorded write. -/
def create_text_fallback (env : WriteEnv) (events_data : List Event)
    (week_start_str week_end_str : String) :
    Option String × List (String × FileKind) :=
  match fromisoformat (replaceZ week_start_str) with
  | none => (none, [])
  | some week_start =>
      let filename := "bidirectional_weekly_planner_" ++ strftimeYmd week_start ++ ".txt"
      if env.txtWriteFails then (none, [])
      else (some filename, [(filename, FileKind.txt)])

/-- `create_bidirectional_linked_pdf`: on the happy path, build the 8-page
document and save `<name>.pdf`, returning the filename; any exception inside
the `try` (date parse failure, PDF save failure, ...) falls back to
`create_text_fallback` on the same inputs. -/
def create_bidirectional_linked_pdf (env : WriteEnv) (events_data : List Event)
    (week_start_str week_end_str : String) :
    Option String × List (String × FileKind) :=
  match fromisoformat (replaceZ week_start_str),
        fromisoformat (replaceZ week_end_str) with
  | some week_start, some _ =>
      let filename := "bidirectional_weekly_planner_" ++ strftimeYmd week_start ++ ".pdf"
      if env.pdfSaveFails then
        create_text_fallback env events_data week_start_str week_end_str
      else (some filename, [(filename, FileKind.pdf)])
  | _, _ => create_text_fallback env events_data week_start_str week_end_str

/-- `main` prints the returned filename (success) exactly when the result is
not `None`; otherwise it exits with status 1. -/
def main_reports_success (result : Option String) : Bool :=
  result.isSome

/-- File-system / PyMuPDF environment for
`create_bidirectional_weekly_package`: which paths exist, and whether any of
the post-validation document operations (open / insert / save) raises. -/
structure FsEnv where
  fsExists : String → Bool
  docFailure : Bool

/-- `create_bidirectional_weekly_package` from `replit_integration.py`:
validate that the weekly PDF exists, that exactly 7 daily paths were given
and that each exists — each failed check logs and returns `False` before any
document is opened; afterwards the package is assembled and saved (any
raised exception is caught and yields `False`).  The second component lists
the files written. -/
def create_bidirectional_weekly_package (env : FsEnv) (weekly_pdf_path : String)
    (daily_pdf_paths : List String) (output_path : String) : Bool × List String :=
  if !env.fsExists weekly_pdf_path then (false, [])
  else if daily_pdf_paths.length ≠ 7 then (false, [])
  else if daily_pdf_paths.any (fun p => !env.fsExists p) then (false, [])
  else if env.docFailure then (false, [])
  else (true, [output_path])

/-! ## Concrete fixtures used by counterexamples and witnesses -/

/-- A one-hour event on Monday 2025-07-14 starting 07:00 UTC. -/
def e1 : Event :=
  ⟨some "Coffee with Nora, long title", "2025-07-14T07:00:00Z",
   "2025-07-14T08:00:00Z", some "google", [], []⟩

/-- Parsed start of `e1`. -/
def d1parsed : PyDateTime := ⟨2025, 7, 14, 7, 0, 0, true⟩

/-- The Monday date of the example week. -/
def d14 : PyDateTime := ⟨2025, 7, 14, 0, 0, 0, true⟩

/-- Aware week bounds for 2025-07-14 .. 2025-07-20. -/
def ws14 : PyDateTime := ⟨2025, 7, 14, 0, 0, 0, true⟩
def we20 : PyDateTime := ⟨2025, 7, 20, 23, 59, 59, true⟩

/-- An event with an unparseable start timestamp. -/
def eBad : Event := ⟨some "Bad", "not-a-date", "", none, [], []⟩

/-- A 15-minute event (half a slot) with no notes or action items. -/
def e15min : Event := ⟨none, "07:00", "07:15", none, [], []⟩

/-- A 60-minute event with no notes or action items. -/
def e60min : Event := ⟨none, "07:00", "08:00", none, [], []⟩

/-- An event starting 05:00, outside the 06:00–23:30 grid. -/
def e0500 : Event :=
  ⟨none, "2025-07-14T05:00:00Z", "2025-07-14T06:00:00Z", none, [], []⟩

/-! ## Helper lemmas -/

theorem filter_events_eq_filter (events : List Event) (ws we : PyDateTime) :
    filter_events_for_week events ws we = events.filter (eventInWeek ws we) := by
  induction events with
  | nil => rfl
  | cons e rest ih =>
      by_cases h : eventInWeek ws we e = true <;>
        simp [filter_events_for_week, List.filter_cons, h, ih]

theorem is_event_at_time_of_parsed (e : Event) (d : PyDateTime) (hh mm : Nat)
    (hd : parsed_start e = some d) :
    is_event_at_time e hh mm = (d.hour == hh && d.minute == mm) := by
  simp [is_event_at_time, hd]

theorem daily_filter_slot (hh mm : Nat) (h1 : 6 ≤ hh) (h2 : hh ≤ 23)
    (h3 : mm = 0 ∨ mm = 30) :
    daily_slot_times.filter (fun hm => hh == hm.1 && mm == hm.2) = [(hh, mm)] := by
  interval_cases hh <;> rcases h3 with rfl | rfl <;> decide

theorem daily_slots_eq_single (e : Event) (d : PyDateTime)
    (hd : parsed_start e = some d) (h1 : 6 ≤ d.hour) (h2 : d.hour ≤ 23)
    (h3 : d.minute = 0 ∨ d.minute = 30) :
    daily_slots_for_event e = [slot_index d.hour d.minute] := by
  have hpred : (fun hm : Nat × Nat => is_event_at_time e hm.1 hm.2)
      = fun hm => d.hour == hm.1 && d.minute == hm.2 := by
    funext hm
    exact is_event_at_time_of_parsed e d hm.1 hm.2 hd
  simp [daily_slots_for_event, hpred, daily_filter_slot d.hour d.minute h1 h2 h3]

theorem daily_slots_eq_nil (e : Event) (d : PyDateTime)
    (hd : parsed_start e = some d)
    (h : d.hour < 6 ∨ (d.minute ≠ 0 ∧ d.minute ≠ 30)) :
    daily_slots_for_event e = [] := by
  have hbounds : ∀ hm ∈ daily_slot_times, 6 ≤ hm.1 ∧ (hm.2 = 0 ∨ hm.2 = 30) := by
    decide
  have hnil : daily_slot_times.filter (fun hm => is_event_at_time e hm.1 hm.2) = [] := by
    refine List.filter_eq_nil_iff.mpr fun hm hmem => ?_
    rw [is_event_at_time_of_parsed e d hm.1 hm.2 hd]
    rcases hbounds hm hmem with ⟨hge, hm2⟩
    rcases h with hlt | ⟨hne0, hne30⟩
    · simp only [Bool.and_eq_true, beq_iff_eq]
      rintro ⟨heq, -⟩
      omega
    · simp only [Bool.and_eq_true, beq_iff_eq]
      rintro ⟨-, heq⟩
      rcases hm2 with h0 | h30
      · exact hne0 (heq.trans h0)
      · exact hne30 (heq.trans h30)
  simp [daily_slots_for_event, hnil]

theorem ratFloor_intCast (d : Int) : Rat.floor (d : ℚ) = d := by
  simp [Rat.floor, Rat.den_intCast, Rat.num_intCast]

theorem ratCeil_intCast (d : Int) : Rat.ceil (d : ℚ) = d := by
  simp [Rat.ceil, Rat.den_intCast, Rat.num_intCast]

theorem pyInt_intCast (d : Int) : pyInt (d : ℚ) = d := by
  unfold pyInt
  split
  · exact ratFloor_intCast d
  · exact ratCeil_intCast d

/-- The time-based height `int((duration / 30) * 30)` is just the duration:
the real-arithmetic value is exactly `duration`, so truncation is the
identity. -/
theorem base_height_eq (d : Int) : pyInt ((d : ℚ) / 30 * 30) = d := by
  rw [div_mul_cancel₀ _ (by norm_num : (30 : ℚ) ≠ 0), pyInt_intCast]

theorem daily_height_no_content (e : Event)
    (hn : e.eventNotes = []) (ha : e.actionItems = []) :
    calculate_daily_event_height e
      = time_to_minutes e.endTime - time_to_minutes e.startTime := by
  unfold calculate_daily_event_height
  simp only [hn, ha]
  rw [if_neg (by simp)]
  exact base_height_eq _

theorem daily_height_with_content (e : Event)
    (h : e.eventNotes ≠ [] ∨ e.actionItems ≠ []) :
    calculate_daily_event_height e
      = (time_to_minutes e.endTime - time_to_minutes e.startTime)
        + ((e.eventNotes.length + e.actionItems.length) * 15
           + (if 0 < e.eventNotes.length then 20 else 0)
           + (if 0 < e.actionItems.length then 20 else 0)) := by
  have hcond : (decide (e.eventNotes ≠ []) || decide (e.actionItems ≠ [])) = true := by
    rcases h with h | h <;> simp [h]
  unfold calculate_daily_event_height
  rw [if_pos hcond]
  have hnonneg : (0 : Int) ≤
      ((e.eventNotes.length + e.actionItems.length) * 15
        + (if 0 < e.eventNotes.length then 20 else 0)
        + (if 0 < e.actionItems.length then 20 else 0) : Nat) := by positivity
  rw [max_eq_right (le_add_of_nonneg_right hnonneg), base_height_eq]
  push_cast
  ring

/-! ## Claim theorems -/

/-- C6: `filter_events_for_week` returns exactly the input events whose
parsed `startTime` lies within `[weekStart, weekEnd]` (both comparisons
succeeding and holding), as a stable subsequence of the input, and the kept
predicate on a parseable event is exactly the two inclusive bound checks. -/
theorem C6_week_filtering (events : List Event) (ws we : PyDateTime) :
    filter_events_for_week events ws we = events.filter (eventInWeek ws we)
    ∧ (filter_events_for_week events ws we).Sublist events
    ∧ ∀ e d, parsed_start e = some d →
        eventInWeek ws we e = ((pyLE ws d).getD false && (pyLE d we).getD false) := by
  refine ⟨filter_events_eq_filter events ws we, ?_, ?_⟩
  · rw [filter_events_eq_filter events ws we]
    exact List.filter_sublist events
  · intro e d hd
    simp [eventInWeek, hd]

/-- C6 witness: the boundary Monday-07:00 event is kept by the week filter,
its predicate agreeing with the inclusive bound checks. -/
theorem C6_week_filtering_witness :
    eventInWeek ws14 we20 e1 = ((pyLE ws14 d1parsed).getD false && (pyLE d1parsed we20).getD false) :=
  (C6_week_filtering [e1] ws14 we20).2.2 e1 d1parsed (by decide)

/-- C7 (amended): an event whose `startTime` fails to parse is skipped and
the remaining events are still processed — but no parsing-failure count is
recorded anywhere in the returned value. -/
theorem C7_unparseable_skipped (events : List Event) (ws we : PyDateTime) (e : Event)
    (hbad : parsed_start e = none) :
    eventInWeek ws we e = false
    ∧ filter_events_for_week (e :: events) ws we = filter_events_for_week events ws we := by
  have h1 : eventInWeek ws we e = false := by simp [eventInWeek, hbad]
  exact ⟨h1, by simp [filter_events_for_week, h1]⟩

/-- C7 witness: the malformed event `eBad` is skipped while `e1` is kept. -/
theorem C7_unparseable_skipped_witness :
    eventInWeek ws14 we20 eBad = false
    ∧ filter_events_for_week [eBad, e1] ws14 we20 = filter_events_for_week [e1] ws14 we20 :=
  C7_unparseable_skipped [e1] ws14 we20 eBad (by decide)

/-- C7 counterexample: the filter's output on an input containing one
unparseable event is identical to its output on the empty input, and
`safe_parse_datetime` returns `None` on a malformed string — so no count of
parsing failures is recorded or returned as diagnostic metadata by either
script; the claimed diagnostic count does not exist. -/
theorem C7_no_count_counterexample :
    filter_events_for_week [eBad] ws14 we20 = filter_events_for_week [] ws14 we20
    ∧ safe_parse_datetime "not-a-date" = none := by
  constructor
  · decide
  · decide

/-- C10: every validation failure of `create_bidirectional_weekly_package`
(missing weekly PDF, daily-path count other than 7, or a missing daily PDF)
yields `False` with no file written; the function is total and all
validations precede any document operation. -/
theorem C10_package_validation (env : FsEnv) (weekly : String)
    (dailies : List String) (out : String)
    (h : env.fsExists weekly = false ∨ dailies.length ≠ 7
         ∨ ∃ p ∈ dailies, env.fsExists p = false) :
    create_bidirectional_weekly_package env weekly dailies out = (false, []) := by
  unfold create_bidirectional_weekly_package
  rcases h with h1 | h2 | ⟨p, hp, hpf⟩
  · simp [h1]
  · by_cases hw : env.fsExists weekly = true
    · simp [hw, h2]
    · simp [Bool.not_eq_true] at hw
      simp [hw]
  · by_cases hw : env.fsExists weekly = true
    · by_cases hlen : dailies.length = 7
      · have hany : dailies.any (fun q => !env.fsExists q) = true :=
          List.any_eq_true.mpr ⟨p, hp, by simp [hpf]⟩
        simp [hw, hlen, hany]
      · simp [hw, hlen]
    · simp [Bool.not_eq_true] at hw
      simp [hw]

/-- C10 witness: a 6-entry daily list is rejected with no file written. -/
theorem C10_package_validation_witness :
    create_bidirectional_weekly_package ⟨fun _ => true, false⟩ "weekly.pdf"
      ["m.pdf", "t.pdf", "w.pdf", "r.pdf", "f.pdf", "s.pdf"] "out.pdf" = (false, []) :=
  C10_package_validation ⟨fun _ => true, false⟩ "weekly.pdf"
    ["m.pdf", "t.pdf", "w.pdf", "r.pdf", "f.pdf", "s.pdf"] "out.pdf"
    (Or.inr (Or.inl (by decide)))

/-- C1 (amended): for an event parsed to an on-grid half-hour start, the
daily page renders it exactly in slot `(hour-6)*2 + minute/30`, which equals
`floor(minutes_since_06:00 / 30)`; the weekly-overview path instead assigns
the event the sequential row equal to its position `j` among its day's
events, independent of its start time, so the two indices coincide exactly
when that position happens to equal the time-slot index. -/
theorem C1_slot_consistency (events : List Event) (current_date : PyDateTime)
    (e : Event) (d : PyDateTime) (j : Nat)
    (hd : parsed_start e = some d)
    (h6 : 6 ≤ d.hour) (h23 : d.hour ≤ 23) (hm : d.minute = 0 ∨ d.minute = 30)
    (hj : weekly_row_index events current_date e = some j) :
    daily_slots_for_event e = [slot_index d.hour d.minute]
    ∧ slot_index d.hour d.minute = (d.hour * 60 + d.minute - 360) / 30
    ∧ (weekly_row_index events current_date e = some (slot_index d.hour d.minute)
        ↔ j = slot_index d.hour d.minute) := by
  refine ⟨daily_slots_eq_single e d hd h6 h23 hm, ?_, ?_⟩
  · simp only [slot_index]
    omega
  · rw [hj]
    simp [eq_comm]

/-- C1 witness: the lone Monday 07:00 event, weekly row 0, daily slot 2. -/
theorem C1_slot_consistency_witness :
    daily_slots_for_event e1 = [slot_index 7 0]
    ∧ slot_index 7 0 = (7 * 60 + 0 - 360) / 30
    ∧ (weekly_row_index [e1] d14 e1 = some (slot_index 7 0) ↔ 0 = slot_index 7 0) :=
  C1_slot_consistency [e1] d14 e1 d1parsed 0 (by decide) (by decide) (by decide)
    (Or.inl (by decide)) (by decide)

/-- C1 counterexample: the lone 07:00 event occupies daily slot 2, but the
weekly overview places it at row 0; the two rendering paths disagree. -/
theorem C1_slot_consistency_counterexample :
    daily_slots_for_event e1 = [2]
    ∧ weekly_row_index [e1] d14 e1 = some 0
    ∧ weekly_row_index [e1] d14 e1 ≠ some 2 := by
  refine ⟨by decide, by decide, by decide⟩

/-- C5 (amended): an event parsed to an on-grid half-hour boundary start
(06:00–23:30) is rendered exactly in slot `floor(minutes_since_06:00/30)`,
which is at most 35; but an event starting before 06:00 or off the half-hour
boundary matches no slot and is dropped from the daily grid rather than
clamped, and the audit's expected position `(minutes_since_6am // 30) * 40`
is negative (not clamped to slot 0) for any start before 06:00. -/
theorem C5_slot_clamping (e : Event) (d : PyDateTime)
    (hd : parsed_start e = some d) :
    (6 ≤ d.hour → d.hour ≤ 23 → (d.minute = 0 ∨ d.minute = 30) →
      daily_slots_for_event e = [(d.hour * 60 + d.minute - 360) / 30]
      ∧ (d.hour * 60 + d.minute - 360) / 30 ≤ 35)
    ∧ (d.hour < 6 ∨ (d.minute ≠ 0 ∧ d.minute ≠ 30) →
      daily_slots_for_event e = [])
    ∧ (∀ h m : Int, h < 6 → 0 ≤ m → m < 60 →
      calculate_expected_position h m < 0) := by
  refine ⟨fun h6 h23 hm => ?_, daily_slots_eq_nil e d hd, fun h m hh hm0 hm60 => ?_⟩
  · have hs := daily_slots_eq_single e d hd h6 h23 hm
    have heq : slot_index d.hour d.minute = (d.hour * 60 + d.minute - 360) / 30 := by
      simp only [slot_index]
      omega
    rw [hs, heq]
    refine ⟨rfl, by omega⟩
  · unfold calculate_expected_position
    rw [Int.fdiv_eq_ediv _ (by norm_num)]
    omega

/-- C5 witness: the 05:00 event is out of grid and dropped; a 07:00 event is
in slot 2 (= (7*60-360)/30) ≤ 35; position of 05:59 is negative. -/
theorem C5_slot_clamping_witness :
    daily_slots_for_event e0500 = []
    ∧ calculate_expected_position 5 59 < 0 := by
  have h := C5_slot_clamping e0500 ⟨2025, 7, 14, 5, 0, 0, true⟩ (by decide)
  exact ⟨h.2.1 (Or.inl (by decide)), h.2.2 5 59 (by decide) (by decide) (by decide)⟩

/-- C5 counterexample: an event starting 05:00 (outside 06:00–23:30) matches
no slot of the daily grid — it is dropped, not clamped into boundary slot 0
and rendered — and the audit's expected position for 05:00 is −80, not the
clamped 0. -/
theorem C5_slot_clamping_counterexample :
    daily_slots_for_event e0500 = []
    ∧ calculate_expected_position 5 0 = -80
    ∧ calculate_expected_position_str "05:00" = some (-80) := by
  refine ⟨by decide, by decide, by decide⟩

/-- C4 (amended): `get_appointment_height` equals
`max(1, duration // 30) * 40` and is always at least one 40px slot tall, and
a 60-minute event with no notes or action items spans exactly two slots in
both calculators (2·40 px and 2·30 px); but `_calculate_daily_event_height`
has no one-slot minimum — its time-based height is duration-proportional. -/
theorem C4_block_height (dur : Int) (e : Event)
    (hn : e.eventNotes = []) (ha : e.actionItems = [])
    (hd : time_to_minutes e.endTime - time_to_minutes e.startTime = 60) :
    get_appointment_height dur = max 1 (Int.fdiv dur 30) * 40
    ∧ 40 ≤ get_appointment_height dur
    ∧ get_appointment_height 60 = 2 * 40
    ∧ calculate_daily_event_height e = 2 * 30 := by
  refine ⟨rfl, ?_, by decide, ?_⟩
  · unfold get_appointment_height
    have h1 : (1 : Int) ≤ max 1 (Int.fdiv dur 30) := le_max_left _ _
    nlinarith
  · rw [daily_height_no_content e hn ha, hd]
    norm_num

/-- C4 witness: the 60-minute fixture event. -/
theorem C4_block_height_witness :
    get_appointment_height 60 = 2 * 40
    ∧ calculate_daily_event_height e60min = 2 * 30 := by
  have h := C4_block_height 60 e60min rfl rfl (by decide)
  exact ⟨h.2.2.1, h.2.2.2⟩

/-- C4 counterexample: a 15-minute event with no notes gets daily block
height 15px — half a slot — not the claimed `max(1, 15 // 30) * 30 = 30`;
the daily calculator has no one-slot minimum. -/
theorem C4_block_height_counterexample :
    calculate_daily_event_height e15min = 15
    ∧ max 1 (Int.fdiv 15 30) * 30 = 30
    ∧ calculate_daily_event_height e15min ≠ max 1 (Int.fdiv 15 30) * 30 := by
  have h : calculate_daily_event_height e15min = 15 := by
    rw [daily_height_no_content e15min rfl rfl]
    decide
  refine ⟨h, by decide, ?_⟩
  rw [h]
  decide

/-- C8 (amended): when saving the PDF fails, `create_bidirectional_linked_pdf`
catches the exception and falls back to writing a `.txt` file, returning its
name — which `main` then reports as success; the error is not propagated. -/
theorem C8_fallback_on_failure (env : WriteEnv) (events : List Event)
    (ws we : String) (d : PyDateTime)
    (hws : fromisoformat (replaceZ ws) = some d)
    (hpdf : env.pdfSaveFails = true) (htxt : env.txtWriteFails = false) :
    create_bidirectional_linked_pdf env events ws we
      = (some ("bidirectional_weekly_planner_" ++ strftimeYmd d ++ ".txt"),
         [("bidirectional_weekly_planner_" ++ strftimeYmd d ++ ".txt", FileKind.txt)])
    ∧ main_reports_success (create_bidirectional_linked_pdf env events ws we).1 = true := by
  have hres : create_bidirectional_linked_pdf env events ws we
      = (some ("bidirectional_weekly_planner_" ++ strftimeYmd d ++ ".txt"),
         [("bidirectional_weekly_planner_" ++ strftimeYmd d ++ ".txt", FileKind.txt)]) := by
    unfold create_bidirectional_linked_pdf create_text_fallback
    rcases hwe : fromisoformat (replaceZ we) with _ | d2 <;>
      simp [hws, hwe, hpdf, htxt]
  exact ⟨hres, by rw [hres]; rfl⟩

/-- C8 witness: with a failing PDF save over the example week, a `.txt`
fallback file is produced and reported. -/
theorem C8_fallback_on_failure_witness :
    create_bidirectional_linked_pdf ⟨true, false⟩ [] "2025-07-14T00:00:00Z" "2025-07-20T23:59:59Z"
      = (some ("bidirectional_weekly_planner_" ++ strftimeYmd ws14 ++ ".txt"),
         [("bidirectional_weekly_planner_" ++ strftimeYmd ws14 ++ ".txt", FileKind.txt)]) :=
  (C8_fallback_on_failure ⟨true, false⟩ [] "2025-07-14T00:00:00Z" "2025-07-20T23:59:59Z"
    ws14 (by decide) rfl rfl).1

/-- C8 counterexample: with a failing PDF save, the export writes a
substitute `.txt` file and `main` reports its filename as success — the
error is not propagated to the caller. -/
theorem C8_fallback_counterexample :
    create_bidirectional_linked_pdf ⟨true, false⟩ [] "2025-07-14T00:00:00Z" "2025-07-20T23:59:59Z"
      = (some "bidirectional_weekly_planner_2025-07-14.txt",
         [("bidirectional_weekly_planner_2025-07-14.txt", FileKind.txt)])
    ∧ main_reports_success
        (create_bidirectional_linked_pdf ⟨true, false⟩ []
          "2025-07-14T00:00:00Z" "2025-07-20T23:59:59Z").1 = true := by
  refine ⟨by decide, by decide⟩

/-- C9 (amended): the weekly overview truncates each rendered title to its
first 15 characters (and shows at most 10 events per day column), while the
enhanced daily calculator grows the block height additively — 15px per
note/action line plus 20px per present section header — above the time-based
height instead of clipping. -/
theorem C9_truncation_vs_growth (events : List Event) (date : PyDateTime)
    (e : Event) (j : Nat)
    (hj : ((events.filter fun ev => is_event_on_date ev date).take 10)[j]? = some e) :
    (weekly_day_entries events date)[j]? =
      some ⟨grid_start_y + weekly_header_height + j * row_height,
            parse_event_time e.startTime,
            (e.title.getD "Untitled").take 15⟩
    ∧ (weekly_day_entries events date).length ≤ 10
    ∧ ∀ ev : Event, ev.eventNotes ≠ [] ∨ ev.actionItems ≠ [] →
        calculate_daily_event_height ev
          = (time_to_minutes ev.endTime - time_to_minutes ev.startTime)
            + ((ev.eventNotes.length + ev.actionItems.length) * 15
               + (if 0 < ev.eventNotes.length then 20 else 0)
               + (if 0 < ev.actionItems.length then 20 else 0)) := by
  refine ⟨?_, ?_, fun ev hne => daily_height_with_content ev hne⟩
  · simp [weekly_day_entries, List.getElem?_map, List.getElem?_enum, hj]
  · simp only [weekly_day_entries, List.length_map, List.enum_length, List.length_take]
    omega

/-- C9 witness: the long-titled 07:00 event is rendered in the weekly grid
with its title cut to 15 characters, and a 60-minute event with two notes
and one action item gets height 60 + 3·15 + 20 + 20 = 145. -/
theorem C9_truncation_vs_growth_witness :
    (weekly_day_entries [e1] d14)[0]? =
      some ⟨grid_start_y + weekly_header_height + 0 * row_height,
            parse_event_time e1.startTime,
            (e1.title.getD "Untitled").take 15⟩ :=
  (C9_truncation_vs_growth [e1] d14 e1 0 (by decide)).1

/-- C9 counterexample: the weekly overview renders the 28-character title
of `e1` as its first 15 characters — the text is truncated, contradicting
"the renderer never clips or truncates the event's text content". -/
theorem C9_truncation_counterexample :
    (weekly_day_entries [e1] d14).map (fun en => en.titleText) = ["Coffee with Nor"]
    ∧ e1.title = some "Coffee with Nora, long title"
    ∧ "Coffee with Nor" ≠ "Coffee with Nora, long title" := by
  refine ⟨by decide, by decide, by decide⟩

/-- C2 (amended): the single-script export path
(`add_bidirectional_hyperlinks`) inserts exactly 26 links with the claimed
breakdown (7 weekly→day, 7 day→weekly, 6 previous-day, 6 next-day) and no
page index outside 0..7; but the package-builder path
(`_add_hyperlinks_to_package`) inserts 40 links — it adds three day→weekly
links per daily page (top button, bottom button, date title), 7+21+6+6 —
still with every page index within 0..7. -/
theorem C2_link_graph (dims : Nat → ℚ × ℚ) :
    add_bidirectional_hyperlinks.length = 26
    ∧ (add_bidirectional_hyperlinks.filter fun e => e.fromPage == 0).length = 7
    ∧ (add_bidirectional_hyperlinks.filter fun e => e.toPage == 0).length = 7
    ∧ (add_bidirectional_hyperlinks.filter
        fun e => e.toPage + 1 == e.fromPage && e.toPage != 0).length = 6
    ∧ (add_bidirectional_hyperlinks.filter
        fun e => e.fromPage + 1 == e.toPage && e.fromPage != 0).length = 6
    ∧ add_bidirectional_hyperlinks.all
        (fun e => decide (e.fromPage ≤ 7) && decide (e.toPage ≤ 7)) = true
    ∧ (add_hyperlinks_to_package dims).length = 40
    ∧ (add_hyperlinks_to_package dims).all
        (fun e => decide (e.fromPage ≤ 7) && decide (e.toPage ≤ 7)) = true := by
  refine ⟨by decide, by decide, by decide, by decide, by decide, by decide, ?_, ?_⟩
  · simp [add_hyperlinks_to_package, List.range_succ]
  · simp [add_hyperlinks_to_package, List.range_succ]

/-- C2 counterexample: on letter-size pages the package-builder path inserts
40 internal links, not the claimed 26. -/
theorem C2_link_graph_counterexample :
    (add_hyperlinks_to_package fun _ => ((612 : ℚ), (792 : ℚ))).length = 40
    ∧ (add_hyperlinks_to_package fun _ => ((612 : ℚ), (792 : ℚ))).length ≠ 26 := by
  have h : (add_hyperlinks_to_package fun _ => ((612 : ℚ), (792 : ℚ))).length = 40 := by
    simp [add_hyperlinks_to_package, List.range_succ]
  exact ⟨h, by rw [h]; decide⟩

/-- C3: `create_bidirectional_linked_pdf` always creates exactly 8 pages, in
the fixed order weekly overview then Monday..Sunday; and
`create_bidirectional_weekly_package`, given one single-page weekly document
and seven single-page daily documents, assembles exactly the 8-page sequence
weekly, Monday..Sunday in input order. -/
theorem C3_page_structure (weeklyPages : List PageKind) (dailyDocs : List (List PageKind))
    (hw : weeklyPages.length = 1) (hd : dailyDocs.length = 7)
    (h1 : ∀ doc ∈ dailyDocs, doc.length = 1) :
    createPdfPageList.length = 8
    ∧ createPdfPageList =
        [PageKind.weekly, PageKind.daily "Monday" 0, PageKind.daily "Tuesday" 1,
         PageKind.daily "Wednesday" 2, PageKind.daily "Thursday" 3,
         PageKind.daily "Friday" 4, PageKind.daily "Saturday" 5,
         PageKind.daily "Sunday" 6]
    ∧ (packagePageList weeklyPages dailyDocs).length = 8
    ∧ ∃ w p1 p2 p3 p4 p5 p6 p7,
        weeklyPages = [w]
        ∧ dailyDocs = [[p1], [p2], [p3], [p4], [p5], [p6], [p7]]
        ∧ packagePageList weeklyPages dailyDocs = [w, p1, p2, p3, p4, p5, p6, p7] := by
  obtain ⟨w, rfl⟩ := List.length_eq_one.mp hw
  rcases dailyDocs with _ | ⟨l1, dailyDocs⟩; · simp at hd
  rcases dailyDocs with _ | ⟨l2, dailyDocs⟩; · simp at hd
  rcases dailyDocs with _ | ⟨l3, dailyDocs⟩; · simp at hd
  rcases dailyDocs with _ | ⟨l4, dailyDocs⟩; · simp at hd
  rcases dailyDocs with _ | ⟨l5, dailyDocs⟩; · simp at hd
  rcases dailyDocs with _ | ⟨l6, dailyDocs⟩; · simp at hd
  rcases dailyDocs with _ | ⟨l7, dailyDocs⟩; · simp at hd
  rcases dailyDocs with _ | ⟨l8, dailyDocs⟩
  · obtain ⟨p1, rfl⟩ := List.length_eq_one.mp (h1 l1 (by simp))
    obtain ⟨p2, rfl⟩ := List.length_eq_one.mp (h1 l2 (by simp))
    obtain ⟨p3, rfl⟩ := List.length_eq_one.mp (h1 l3 (by simp))
    obtain ⟨p4, rfl⟩ := List.length_eq_one.mp (h1 l4 (by simp))
    obtain ⟨p5, rfl⟩ := List.length_eq_one.mp (h1 l5 (by simp))
    obtain ⟨p6, rfl⟩ := List.length_eq_one.mp (h1 l6 (by simp))
    obtain ⟨p7, rfl⟩ := List.length_eq_one.mp (h1 l7 (by simp))
    exact ⟨rfl, rfl, rfl,
      w, p1, p2, p3, p4, p5, p6, p7, rfl, rfl, rfl⟩
  · simp at hd

/-- C3 witness: the page lists of a concrete single-page-per-document
package. -/
theorem C3_page_structure_witness :
    (packagePageList [PageKind.weekly]
      [[PageKind.daily "Monday" 0], [PageKind.daily "Tuesday" 1],
       [PageKind.daily "Wednesday" 2], [PageKind.daily "Thursday" 3],
       [PageKind.daily "Friday" 4], [PageKind.daily "Saturday" 5],
       [PageKind.daily "Sunday" 6]]).length = 8 :=
  (C3_page_structure [PageKind.weekly]
    [[PageKind.daily "Monday" 0], [PageKind.daily "Tuesday" 1],
     [PageKind.daily "Wednesday" 2], [PageKind.daily "Thursday" 3],
     [PageKind.daily "Friday" 4], [PageKind.daily "Saturday" 5],
     [PageKind.daily "Sunday" 6]] rfl rfl (by decide)).2.2.1

end Planner
